import Mathlib

/-!
Verification of the data-migration seeding script (scripts/migrate_data.py).

The script runs three sequential steps against a document database:
seed roadmap tasks if the collection is empty, seed team members if the
collection is empty, then inspect a platform-settings document read-only.
We embed the database as a record of collections, uuid4 and
datetime.now as counter-indexed oracles, and driver faults as an
oracle giving each database operation an optional raised error.
-/

/-- Oracle for the nondeterministic sources of the script:
uuid4 (a stream of generated identifier strings) and
datetime.now(timezone.utc).isoformat() (a stream of timestamp strings). -/
structure Gen where
  ids : Nat → String
  times : Nat → String

/-- A roadmap task document, as built at lines 33-50 of the script.
The id, created_at and updated_at fields are nullable document fields;
the script always assigns them string values. -/
structure RoadmapTask where
  id : Option String
  name : String
  status : String
  category : String
  order : Nat
  created_at : Option String
  updated_at : Option String
deriving Repr, DecidableEq

/-- A team member document, as built at lines 65-117 of the script.
The avatar field is explicitly set to None in the source. -/
structure TeamMember where
  id : Option String
  name : String
  name_ru : String
  position : String
  position_ru : String
  bio : String
  bio_ru : String
  avatar : Option String
  social_links : List (String × String)
  order : Nat
  created_at : Option String
  updated_at : Option String
deriving Repr, DecidableEq

/-- A platform-settings document: keyed by an id, holding an optional
service_modules list (the script reads it with .get, defaulting to []). -/
structure PlatformSettings where
  id : String
  service_modules : Option (List String)
deriving Repr, DecidableEq

/-- The database: the three collections the script touches. -/
structure DB where
  roadmap_tasks : List RoadmapTask
  team_members : List TeamMember
  platform_settings : List PlatformSettings
deriving Repr, DecidableEq

/-- The empty database. -/
def emptyDB : DB := ⟨[], [], []⟩

/-- The world a run executes in: the generation oracle and a fault
oracle assigning each database operation (counted in call order) an
optional error it raises. -/
structure W where
  g : Gen
  faults : Nat → Option String

/-- Mutable state threaded through a run: the database, the position in
the uuid4 stream (cid), the position in the timestamp stream (ctime),
and the count of database operations issued so far (cop). -/
structure St where
  db : DB
  cid : Nat
  ctime : Nat
  cop : Nat
deriving Repr, DecidableEq

/-- Issue one database operation: consume the next fault-oracle entry;
a some result means the driver raised with that message. -/
def nextOp (w : W) (s : St) : St × Option String :=
  ({ s with cop := s.cop + 1 }, w.faults s.cop)

/-- The fixed data of the twelve default roadmap tasks, in list order:
name, status, category, order (lines 33-46 of the script). -/
def default_tasks_data : List (String × String × String × Nat) :=
  [("Platform Architecture", "done", "Development", 1),
   ("Core Team Formation", "done", "Team", 2),
   ("Alpha Version Launch", "done", "Development", 3),
   ("Community Building", "done", "Marketing", 4),
   ("Beta Version v1.0", "done", "Development", 5),
   ("NFT Box 666 Mint", "done", "NFT", 6),
   ("Wallet Integration", "done", "Development", 7),
   ("Analytics Dashboard", "done", "Development", 8),
   ("Beta Version v1.1", "progress", "Development", 9),
   ("OTC Marketplace", "progress", "Development", 10),
   ("Mobile App Development", "progress", "Development", 11),
   ("Partnership Programs", "progress", "Business", 12)]

/-- The default_tasks list of the script: each entry of the fixed data
gets a freshly generated id (uuid4 stream position c + index) and then
the loop at lines 48-50 assigns created_at and updated_at from two
consecutive datetime.now calls per task. -/
def default_tasks (g : Gen) (c t : Nat) : List RoadmapTask :=
  default_tasks_data.enum.map (fun p =>
    { id := some (g.ids (c + p.1))
      name := p.2.1
      status := p.2.2.1
      category := p.2.2.2.1
      order := p.2.2.2.2
      created_at := some (g.times (t + 2 * p.1))
      updated_at := some (g.times (t + 2 * p.1 + 1)) })

/-- The default_members list of the script (lines 65-117): three fixed
member records; each consumes one uuid4 and two datetime.now calls. -/
def default_members (g : Gen) (c t : Nat) : List TeamMember :=
  [{ id := some (g.ids c)
     name := "Alex Morgan"
     name_ru := "Алекс Морган"
     position := "CEO & Founder"
     position_ru := "CEO и Основатель"
     bio := "10+ years in blockchain and crypto trading"
     bio_ru := "10+ лет опыта в блокчейне и крипто-трейдинге"
     avatar := none
     social_links := [("twitter", "https://twitter.com/alexmorgan"),
                      ("linkedin", "https://linkedin.com/in/alexmorgan")]
     order := 1
     created_at := some (g.times t)
     updated_at := some (g.times (t + 1)) },
   { id := some (g.ids (c + 1))
     name := "Sarah Chen"
     name_ru := "Сара Чен"
     position := "CTO"
     position_ru := "Технический директор"
     bio := "Former Google engineer, blockchain expert"
     bio_ru := "Бывший инженер Google, эксперт по блокчейну"
     avatar := none
     social_links := [("twitter", "https://twitter.com/sarahchen"),
                      ("linkedin", "https://linkedin.com/in/sarahchen")]
     order := 2
     created_at := some (g.times (t + 2))
     updated_at := some (g.times (t + 3)) },
   { id := some (g.ids (c + 2))
     name := "Michael Ross"
     name_ru := "Майкл Росс"
     position := "Head of Product"
     position_ru := "Руководитель продукта"
     bio := "Ex-Binance, product strategy specialist"
     bio_ru := "Экс-Binance, специалист по продуктовой стратегии"
     avatar := none
     social_links := [("twitter", "https://twitter.com/michaelross"),
                      ("linkedin", "https://linkedin.com/in/michaelross")]
     order := 3
     created_at := some (g.times (t + 4))
     updated_at := some (g.times (t + 5)) }]

/-- Modelled from the spec: insert_many of the underlying driver is not
part of the repository; per the spec, batch inserts are treated as
all-or-nothing by the underlying driver, so on failure the collection
is left unchanged and on success all documents are appended. -/
def insert_many {α : Type} (w : W) (s : St) (col docs : List α) :
    St × List α × Option String :=
  match nextOp w s with
  | (s1, some e) => (s1, col, some e)
  | (s1, none) => (s1, col ++ docs, none)

/-- migrate_roadmap_tasks (lines 23-53): count the roadmap_tasks
collection; if nonzero, skip; otherwise build default_tasks (consuming
12 uuid4 calls and 24 datetime.now calls) and insert them as one batch. -/
def migrate_roadmap_tasks (w : W) (s : St) : St × Option String :=
  match nextOp w s with
  | (s1, some e) => (s1, some e)
  | (s1, none) =>
    if s1.db.roadmap_tasks.length > 0 then (s1, none)
    else
      let docs := default_tasks w.g s1.cid s1.ctime
      match insert_many w s1 s1.db.roadmap_tasks docs with
      | (s2, _, some e) => (s2, some e)
      | (s2, col, none) =>
        ({ s2 with db := { s2.db with roadmap_tasks := col }
                   cid := s2.cid + 12
                   ctime := s2.ctime + 24 }, none)

/-- migrate_team_members (lines 55-120): count the team_members
collection; if nonzero, skip; otherwise build default_members
(consuming 3 uuid4 calls and 6 datetime.now calls) and insert them as
one batch. -/
def migrate_team_members (w : W) (s : St) : St × Option String :=
  match nextOp w s with
  | (s1, some e) => (s1, some e)
  | (s1, none) =>
    if s1.db.team_members.length > 0 then (s1, none)
    else
      let docs := default_members w.g s1.cid s1.ctime
      match insert_many w s1 s1.db.team_members docs with
      | (s2, _, some e) => (s2, some e)
      | (s2, col, none) =>
        ({ s2 with db := { s2.db with team_members := col }
                   cid := s2.cid + 3
                   ctime := s2.ctime + 6 }, none)

/-- What the settings inspection reports on its console line. -/
inductive SettingsReport where
  | found : Nat → SettingsReport
  | notFound : SettingsReport
deriving Repr, DecidableEq

/-- find_one on the platform_settings collection with the fixed filter
id = "platform_settings": the first matching document, if any. -/
def find_one_platform_settings (db : DB) : Option PlatformSettings :=
  db.platform_settings.find? (fun d => d.id == "platform_settings")

/-- check_platform_settings (lines 122-131): a read-only find_one on
the settings collection; reports the length of service_modules
(defaulting to the empty list) when the document exists, absence
otherwise. -/
def check_platform_settings (w : W) (s : St) :
    St × Option String × Option SettingsReport :=
  match nextOp w s with
  | (s1, some e) => (s1, some e, none)
  | (s1, none) =>
    match find_one_platform_settings s1.db with
    | some st => (s1, none, some (.found (st.service_modules.getD []).length))
    | none => (s1, none, some .notFound)

/-- The three migration steps, in the order main runs them. -/
inductive Step where
  | roadmap | team | settings
deriving Repr, DecidableEq

/-- Observable events of a run of main: a step executing, the
top-level failure log line, and the connection being closed. -/
inductive Ev where
  | step : Step → Ev
  | logFailure : String → Ev
  | closeConn : Ev
deriving Repr, DecidableEq

/-- The try-block of main (lines 138-140): run the three steps in
sequence, stopping at the first raised error. Returns the steps that
executed, the final state, and the propagated error if any. -/
def runSteps (w : W) (s : St) : List Step × St × Option String :=
  match migrate_roadmap_tasks w s with
  | (s1, some e) => ([.roadmap], s1, some e)
  | (s1, none) =>
    match migrate_team_members w s1 with
    | (s2, some e) => ([.roadmap, .team], s2, some e)
    | (s2, none) =>
      match check_platform_settings w s2 with
      | (s3, some e, _) => ([.roadmap, .team, .settings], s3, some e)
      | (s3, none, _) => ([.roadmap, .team, .settings], s3, none)

/-- main (lines 133-147; named migrate_main here since main is reserved): run the steps; on failure log the message
and re-raise; in all cases close the client connection last. The
returned Option String is the error the process exits with, if any. -/
def migrate_main (w : W) (s : St) : List Ev × St × Option String :=
  match runSteps w s with
  | (ex, s1, some e) =>
    (ex.map Ev.step ++ [Ev.logFailure ("Migration failed: " ++ e), Ev.closeConn],
     s1, some e)
  | (ex, s1, none) => (ex.map Ev.step ++ [Ev.closeConn], s1, none)

/-- MONGO_URL resolution (line 19): the value of the MONGO_URL
environment variable when set, else the documented local default. -/
def MONGO_URL (env : String → Option String) : String :=
  (env "MONGO_URL").getD "mongodb://localhost:27017"

/-! ## Helper definitions and lemmas -/

/-- The state at script start: the counters of all oracle streams at 0. -/
def initSt (db : DB) : St := ⟨db, 0, 0, 0⟩

/-- The deterministic content of a roadmap task: every field except the
generated id, created_at and updated_at. -/
def taskContent (d : RoadmapTask) : String × String × String × Nat :=
  (d.name, d.status, d.category, d.order)

/-- The deterministic content of a team member: every field except the
generated id, created_at and updated_at. -/
def memberContent (d : TeamMember) :
    String × String × String × String × String × String × Option String ×
      List (String × String) × Nat :=
  (d.name, d.name_ru, d.position, d.position_ru, d.bio, d.bio_ru,
   d.avatar, d.social_links, d.order)

/-- A concrete generation oracle with injective identifier stream. -/
def gen0 : Gen :=
  ⟨fun n => String.mk (List.replicate n 'a'), fun _ => "2025-01-01T00:00:00+00:00"⟩

/-- A fault-free world over the concrete oracle. -/
def w0 : W := ⟨gen0, fun _ => none⟩

/-- A world in which every database operation raises. -/
def wBoom : W := ⟨gen0, fun _ => some "boom"⟩

lemma gen0_inj : Function.Injective gen0.ids := by
  intro a b h
  have h2 : List.replicate a 'a' = List.replicate b 'a' := congrArg String.data h
  simpa using congrArg List.length h2

lemma migrate_roadmap_skip (w : W) (s : St) (h : s.db.roadmap_tasks ≠ []) :
    ((migrate_roadmap_tasks w s).1).db = s.db := by
  unfold migrate_roadmap_tasks nextOp
  cases hf : w.faults s.cop with
  | some e => rfl
  | none => simp [List.length_pos.mpr h]

lemma migrate_team_skip (w : W) (s : St) (h : s.db.team_members ≠ []) :
    ((migrate_team_members w s).1).db = s.db := by
  unfold migrate_team_members nextOp
  cases hf : w.faults s.cop with
  | some e => rfl
  | none => simp [List.length_pos.mpr h]

lemma roadmap_nonempty_after_ok (w : W) (s : St)
    (h : (migrate_roadmap_tasks w s).2 = none) :
    ((migrate_roadmap_tasks w s).1).db.roadmap_tasks ≠ [] := by
  by_cases hne : s.db.roadmap_tasks = []
  · cases hf : w.faults s.cop with
    | some e => exfalso; simp [migrate_roadmap_tasks, nextOp, hf] at h
    | none =>
      cases hf2 : w.faults (s.cop + 1) with
      | some e =>
        exfalso
        simp [migrate_roadmap_tasks, nextOp, insert_many, hf, hf2, hne] at h
      | none =>
        simp [migrate_roadmap_tasks, nextOp, insert_many, hf, hf2, hne,
              default_tasks, default_tasks_data]
  · rw [migrate_roadmap_skip w s hne]; exact hne

lemma team_nonempty_after_ok (w : W) (s : St)
    (h : (migrate_team_members w s).2 = none) :
    ((migrate_team_members w s).1).db.team_members ≠ [] := by
  by_cases hne : s.db.team_members = []
  · cases hf : w.faults s.cop with
    | some e => exfalso; simp [migrate_team_members, nextOp, hf] at h
    | none =>
      cases hf2 : w.faults (s.cop + 1) with
      | some e =>
        exfalso
        simp [migrate_team_members, nextOp, insert_many, hf, hf2, hne] at h
      | none =>
        simp [migrate_team_members, nextOp, insert_many, hf, hf2, hne,
              default_members]
  · rw [migrate_team_skip w s hne]; exact hne

lemma migrate_roadmap_ok_empty (w : W) (s : St) (h : s.db.roadmap_tasks = [])
    (hok : (migrate_roadmap_tasks w s).2 = none) :
    ((migrate_roadmap_tasks w s).1).db.roadmap_tasks =
      default_tasks w.g s.cid s.ctime := by
  cases hf : w.faults s.cop with
  | some e => exfalso; simp [migrate_roadmap_tasks, nextOp, hf] at hok
  | none =>
    cases hf2 : w.faults (s.cop + 1) with
    | some e =>
      exfalso
      simp [migrate_roadmap_tasks, nextOp, insert_many, hf, hf2, h] at hok
    | none =>
      simp [migrate_roadmap_tasks, nextOp, insert_many, hf, hf2, h]

lemma migrate_team_ok_empty (w : W) (s : St) (h : s.db.team_members = [])
    (hok : (migrate_team_members w s).2 = none) :
    ((migrate_team_members w s).1).db.team_members =
      default_members w.g s.cid s.ctime := by
  cases hf : w.faults s.cop with
  | some e => exfalso; simp [migrate_team_members, nextOp, hf] at hok
  | none =>
    cases hf2 : w.faults (s.cop + 1) with
    | some e =>
      exfalso
      simp [migrate_team_members, nextOp, insert_many, hf, hf2, h] at hok
    | none =>
      simp [migrate_team_members, nextOp, insert_many, hf, hf2, h]

lemma main_ok_init (w : W) (hf : w.faults = fun _ => none) :
    (migrate_main w (initSt emptyDB)).2.1 =
      ⟨⟨default_tasks w.g 0 0, default_members w.g 12 24, []⟩, 15, 30, 5⟩ ∧
    (migrate_main w (initSt emptyDB)).2.2 = none := by
  constructor <;>
    simp [migrate_main, runSteps, migrate_roadmap_tasks, migrate_team_members,
          check_platform_settings, insert_many, nextOp, hf, initSt, emptyDB,
          find_one_platform_settings, default_tasks, default_tasks_data,
          default_members]

lemma ids_nodup_init (g : Gen) (hg : Function.Injective g.ids) :
    ((default_tasks g 0 0).map RoadmapTask.id ++
      (default_members g 12 24).map TeamMember.id).Nodup := by
  have hinj : ∀ a b : Nat, g.ids a = g.ids b ↔ a = b := fun a b => hg.eq_iff
  simp +arith [default_tasks, default_tasks_data, default_members,
               List.enum, List.enumFrom, List.nodup_cons, hinj]

/-! ## Concrete inputs used by the witnesses -/

/-- An environment with MONGO_URL set. -/
def envSet : String → Option String :=
  fun k => if k = "MONGO_URL" then some "mongodb://db:27017" else none

/-- An environment with MONGO_URL unset. -/
def envUnset : String → Option String := fun _ => none

/-- A concrete pre-populated roadmap task. -/
def task0 : RoadmapTask :=
  ⟨some "t-1", "Old Task", "done", "Development", 1, some "2024", some "2024"⟩

/-- A concrete pre-populated team member. -/
def member0 : TeamMember :=
  ⟨some "m-1", "Old Member", "Старый", "Dev", "Дев", "b", "б", none, [], 1,
   some "2024", some "2024"⟩

/-- A state whose roadmap and team collections are already populated. -/
def sNE : St := initSt ⟨[task0], [member0], []⟩

/-- A state holding a settings document with two service modules. -/
def sSettings : St :=
  initSt ⟨[], [], [⟨"platform_settings", some ["analytics", "wallet"]⟩]⟩

/-- A state holding a settings document without a service_modules field. -/
def sNoModules : St := initSt ⟨[], [], [⟨"platform_settings", none⟩]⟩

/-! ## Claim theorems -/

/-- C5: the settings inspection step is read-only and total on absence:
for every database state it performs no write (the database, and in
particular the settings collection, is unchanged); when the driver does
not fault it raises no error, reports the module count when the
document with the fixed identifier exists, and reports absence when it
does not. -/
theorem C5_settings_inspection_readonly (w : W) (s : St) :
    ((check_platform_settings w s).1).db = s.db ∧
    (w.faults s.cop = none →
      (check_platform_settings w s).2.1 = none ∧
      (∀ st, find_one_platform_settings s.db = some st →
        (check_platform_settings w s).2.2 =
          some (SettingsReport.found (st.service_modules.getD []).length)) ∧
      (find_one_platform_settings s.db = none →
        (check_platform_settings w s).2.2 = some SettingsReport.notFound)) := by
  constructor
  · cases hf : w.faults s.cop with
    | some e => simp [check_platform_settings, nextOp, hf]
    | none =>
      cases hfind : find_one_platform_settings s.db with
      | some st => simp [check_platform_settings, nextOp, hf, hfind]
      | none => simp [check_platform_settings, nextOp, hf, hfind]
  · intro hf
    refine ⟨?_, ?_, ?_⟩
    · cases hfind : find_one_platform_settings s.db with
      | some st => simp [check_platform_settings, nextOp, hf, hfind]
      | none => simp [check_platform_settings, nextOp, hf, hfind]
    · intro st hfind
      simp [check_platform_settings, nextOp, hf, hfind]
    · intro hfind
      simp [check_platform_settings, nextOp, hf, hfind]

/-- Witness for C5 at concrete states: a settings document with two
modules is reported as found 2 with no write, and an absent document is
reported as notFound. -/
theorem C5_settings_inspection_readonly_witness :
    ((check_platform_settings w0 sSettings).1).db = sSettings.db ∧
    (check_platform_settings w0 sSettings).2.2 = some (SettingsReport.found 2) ∧
    (check_platform_settings w0 (initSt emptyDB)).2.2 =
      some SettingsReport.notFound := by
  refine ⟨(C5_settings_inspection_readonly w0 sSettings).1, ?_, ?_⟩
  · exact ((C5_settings_inspection_readonly w0 sSettings).2 rfl).2.1
      ⟨"platform_settings", some ["analytics", "wallet"]⟩ (by decide)
  · exact ((C5_settings_inspection_readonly w0 (initSt emptyDB)).2 rfl).2.2
      (by decide)

/-- C6: on every run of the orchestrator, whatever the outcome, the
database connection is released exactly once, as the last event of the
run: the event list is some prefix not containing closeConn followed by
a single closeConn. -/
theorem C6_connection_released_once (w : W) (s : St) :
    ∃ pre, (migrate_main w s).1 = pre ++ [Ev.closeConn] ∧ Ev.closeConn ∉ pre := by
  unfold migrate_main
  rcases h : runSteps w s with ⟨ex, s1, err⟩
  cases err with
  | none => exact ⟨ex.map Ev.step, by simp, by simp⟩
  | some e =>
    exact ⟨ex.map Ev.step ++ [Ev.logFailure ("Migration failed: " ++ e)],
           by simp, by simp⟩

/-- C8: the database endpoint equals the MONGO_URL environment variable
when set, and the documented local default mongodb://localhost:27017
when not set. -/
theorem C8_connection_string_resolution (env : String → Option String) :
    (∀ u, env "MONGO_URL" = some u → MONGO_URL env = u) ∧
    (env "MONGO_URL" = none → MONGO_URL env = "mongodb://localhost:27017") := by
  constructor
  · intro u hu; simp [MONGO_URL, hu]
  · intro hu; simp [MONGO_URL, hu]

/-- Witness for C8 at two concrete environments. -/
theorem C8_connection_string_resolution_witness :
    MONGO_URL envSet = "mongodb://db:27017" ∧
    MONGO_URL envUnset = "mongodb://localhost:27017" :=
  ⟨(C8_connection_string_resolution envSet).1 _ (by decide),
   (C8_connection_string_resolution envUnset).2 rfl⟩

/-- C9: for every settings document found under the fixed identifier,
check_platform_settings reports the length of its service_modules list,
and when the document lacks the service_modules field it reports a
module count of 0 instead of raising. -/
theorem C9_module_count_semantics (w : W) (s : St) (st : PlatformSettings)
    (hf : w.faults s.cop = none)
    (hfind : find_one_platform_settings s.db = some st) :
    (check_platform_settings w s).2.1 = none ∧
    (check_platform_settings w s).2.2 =
      some (SettingsReport.found (st.service_modules.getD []).length) ∧
    (st.service_modules = none →
      (check_platform_settings w s).2.2 = some (SettingsReport.found 0)) := by
  have h1 : (check_platform_settings w s).2.2 =
      some (SettingsReport.found (st.service_modules.getD []).length) := by
    simp [check_platform_settings, nextOp, hf, hfind]
  refine ⟨?_, h1, fun hm => by simp [h1, hm]⟩
  simp [check_platform_settings, nextOp, hf, hfind]

/-- Witness for C9: a document with two modules reports found 2; a
document lacking the service_modules field reports found 0. -/
theorem C9_module_count_semantics_witness :
    (check_platform_settings w0 sSettings).2.2 = some (SettingsReport.found 2) ∧
    (check_platform_settings w0 sNoModules).2.2 = some (SettingsReport.found 0) :=
  ⟨(C9_module_count_semantics w0 sSettings
      ⟨"platform_settings", some ["analytics", "wallet"]⟩ rfl (by decide)).2.1,
   (C9_module_count_semantics w0 sNoModules
      ⟨"platform_settings", none⟩ rfl (by decide)).2.2 rfl⟩

/-- C1: seeding is idempotent and skip-if-nonempty: on a non-empty
roadmap (resp. team) collection the migrate step leaves the database
unchanged, and after a run of the step that raised no error a second
run leaves the document count of the collection unchanged. -/
theorem C1_seeding_idempotent (w w2 : W) (s : St) :
    (s.db.roadmap_tasks ≠ [] → ((migrate_roadmap_tasks w s).1).db = s.db) ∧
    (s.db.team_members ≠ [] → ((migrate_team_members w s).1).db = s.db) ∧
    ((migrate_roadmap_tasks w s).2 = none →
      ((migrate_roadmap_tasks w2
          (migrate_roadmap_tasks w s).1).1).db.roadmap_tasks.length =
        ((migrate_roadmap_tasks w s).1).db.roadmap_tasks.length) ∧
    ((migrate_team_members w s).2 = none →
      ((migrate_team_members w2
          (migrate_team_members w s).1).1).db.team_members.length =
        ((migrate_team_members w s).1).db.team_members.length) := by
  refine ⟨migrate_roadmap_skip w s, migrate_team_skip w s, ?_, ?_⟩
  · intro h
    rw [migrate_roadmap_skip w2 _ (roadmap_nonempty_after_ok w s h)]
  · intro h
    rw [migrate_team_skip w2 _ (team_nonempty_after_ok w s h)]

/-- Witness for C1: a pre-populated state is left unchanged, and a
second run after a successful first run from empty preserves both
document counts. -/
theorem C1_seeding_idempotent_witness :
    ((migrate_roadmap_tasks w0 sNE).1).db = sNE.db ∧
    ((migrate_team_members w0 sNE).1).db = sNE.db ∧
    ((migrate_roadmap_tasks w0
        (migrate_roadmap_tasks w0 (initSt emptyDB)).1).1).db.roadmap_tasks.length =
      ((migrate_roadmap_tasks w0 (initSt emptyDB)).1).db.roadmap_tasks.length ∧
    ((migrate_team_members w0
        (migrate_team_members w0 (initSt emptyDB)).1).1).db.team_members.length =
      ((migrate_team_members w0 (initSt emptyDB)).1).db.team_members.length := by
  obtain ⟨a, b, -, -⟩ := C1_seeding_idempotent w0 w0 sNE
  obtain ⟨-, -, c, d⟩ := C1_seeding_idempotent w0 w0 (initSt emptyDB)
  exact ⟨a (by decide), b (by decide), c (by decide), d (by decide)⟩

/-- C3: the batch insert is all-or-nothing: from an empty roadmap
(resp. team) collection, either the step raises no error and exactly
the twelve (resp. three) documents are present, or it raises and the
collection is exactly as before; no partial batch is observable. -/
theorem C3_batch_insert_atomic (w : W) (s : St) :
    (s.db.roadmap_tasks = [] →
      ((migrate_roadmap_tasks w s).2 = none ∧
        ((migrate_roadmap_tasks w s).1).db.roadmap_tasks.length = 12) ∨
      (∃ e, (migrate_roadmap_tasks w s).2 = some e ∧
        ((migrate_roadmap_tasks w s).1).db.roadmap_tasks = s.db.roadmap_tasks)) ∧
    (s.db.team_members = [] →
      ((migrate_team_members w s).2 = none ∧
        ((migrate_team_members w s).1).db.team_members.length = 3) ∨
      (∃ e, (migrate_team_members w s).2 = some e ∧
        ((migrate_team_members w s).1).db.team_members = s.db.team_members)) := by
  constructor
  · intro h
    cases hf : w.faults s.cop with
    | some e =>
      right
      refine ⟨e, ?_, ?_⟩ <;> simp [migrate_roadmap_tasks, nextOp, hf]
    | none =>
      cases hf2 : w.faults (s.cop + 1) with
      | some e =>
        right
        refine ⟨e, ?_, ?_⟩ <;>
          simp [migrate_roadmap_tasks, insert_many, nextOp, hf, hf2, h]
      | none =>
        left
        constructor <;>
          simp +arith [migrate_roadmap_tasks, insert_many, nextOp, hf, hf2, h,
                       default_tasks, default_tasks_data, List.enum,
                       List.enumFrom]
  · intro h
    cases hf : w.faults s.cop with
    | some e =>
      right
      refine ⟨e, ?_, ?_⟩ <;> simp [migrate_team_members, nextOp, hf]
    | none =>
      cases hf2 : w.faults (s.cop + 1) with
      | some e =>
        right
        refine ⟨e, ?_, ?_⟩ <;>
          simp [migrate_team_members, insert_many, nextOp, hf, hf2, h]
      | none =>
        left
        constructor <;>
          simp +arith [migrate_team_members, insert_many, nextOp, hf, hf2, h,
                       default_members]

/-- Witness for C3 at the empty database in a fault-free world: the
successful branch of the disjunction holds for both collections. -/
theorem C3_batch_insert_atomic_witness :
    (((migrate_roadmap_tasks w0 (initSt emptyDB)).2 = none ∧
        ((migrate_roadmap_tasks w0 (initSt emptyDB)).1).db.roadmap_tasks.length =
          12) ∨
      (∃ e, (migrate_roadmap_tasks w0 (initSt emptyDB)).2 = some e ∧
        ((migrate_roadmap_tasks w0 (initSt emptyDB)).1).db.roadmap_tasks =
          (initSt emptyDB).db.roadmap_tasks)) ∧
    (((migrate_team_members w0 (initSt emptyDB)).2 = none ∧
        ((migrate_team_members w0 (initSt emptyDB)).1).db.team_members.length =
          3) ∨
      (∃ e, (migrate_team_members w0 (initSt emptyDB)).2 = some e ∧
        ((migrate_team_members w0 (initSt emptyDB)).1).db.team_members =
          (initSt emptyDB).db.team_members)) :=
  ⟨(C3_batch_insert_atomic w0 (initSt emptyDB)).1 rfl,
   (C3_batch_insert_atomic w0 (initSt emptyDB)).2 rfl⟩

/-- C7: a first run against an empty roadmap collection that raises no
error inserts the twelve tasks with the fixed names, statuses,
categories and order indices of the source list: the order fields are
exactly 1 through 12 in list order and every status is one of done,
progress or planned. -/
theorem C7_fixed_roadmap_content (w : W) (s : St) (h : s.db.roadmap_tasks = [])
    (hok : (migrate_roadmap_tasks w s).2 = none) :
    ((migrate_roadmap_tasks w s).1).db.roadmap_tasks.map RoadmapTask.name =
      ["Platform Architecture", "Core Team Formation", "Alpha Version Launch",
       "Community Building", "Beta Version v1.0", "NFT Box 666 Mint",
       "Wallet Integration", "Analytics Dashboard", "Beta Version v1.1",
       "OTC Marketplace", "Mobile App Development", "Partnership Programs"] ∧
    ((migrate_roadmap_tasks w s).1).db.roadmap_tasks.map RoadmapTask.status =
      ["done", "done", "done", "done", "done", "done", "done", "done",
       "progress", "progress", "progress", "progress"] ∧
    ((migrate_roadmap_tasks w s).1).db.roadmap_tasks.map RoadmapTask.category =
      ["Development", "Team", "Development", "Marketing", "Development", "NFT",
       "Development", "Development", "Development", "Development",
       "Development", "Business"] ∧
    ((migrate_roadmap_tasks w s).1).db.roadmap_tasks.map RoadmapTask.order =
      [1, 2, 3, 4, 5, 6, 7, 8, 9, 10, 11, 12] ∧
    (∀ d ∈ ((migrate_roadmap_tasks w s).1).db.roadmap_tasks,
      d.status = "done" ∨ d.status = "progress" ∨ d.status = "planned") := by
  rw [migrate_roadmap_ok_empty w s h hok]
  refine ⟨rfl, rfl, rfl, rfl, ?_⟩
  intro d hd
  have hm : d.status ∈ (default_tasks w.g s.cid s.ctime).map RoadmapTask.status :=
    List.mem_map_of_mem _ hd
  rw [show (default_tasks w.g s.cid s.ctime).map RoadmapTask.status =
      ["done", "done", "done", "done", "done", "done", "done", "done",
       "progress", "progress", "progress", "progress"] from rfl] at hm
  simp at hm
  tauto

/-- Witness for C7: fault-free run from the empty database produces
order fields 1 through 12. -/
theorem C7_fixed_roadmap_content_witness :
    ((migrate_roadmap_tasks w0 (initSt emptyDB)).1).db.roadmap_tasks.map
      RoadmapTask.order = [1, 2, 3, 4, 5, 6, 7, 8, 9, 10, 11, 12] :=
  (C7_fixed_roadmap_content w0 (initSt emptyDB) rfl rfl).2.2.2.1

/-- A second fault-free world with a different generation oracle. -/
def w0b : W := ⟨⟨fun _ => "id-z", fun _ => "2026-02-02T00:00:00+00:00"⟩, fun _ => none⟩

/-- C2: a fault-free run on the empty database, with a generation
oracle producing pairwise-distinct identifiers, inserts exactly twelve
roadmap documents and exactly three team documents, each with non-null
id, created_at and updated_at, and the ids of all inserted documents
are pairwise distinct. -/
theorem C2_first_run_completeness (w : W)
    (hf : w.faults = fun _ => none)
    (hg : Function.Injective w.g.ids) :
    ((migrate_main w (initSt emptyDB)).2.1).db.roadmap_tasks.length = 12 ∧
    ((migrate_main w (initSt emptyDB)).2.1).db.team_members.length = 3 ∧
    (∀ d ∈ ((migrate_main w (initSt emptyDB)).2.1).db.roadmap_tasks,
      d.id.isSome ∧ d.created_at.isSome ∧ d.updated_at.isSome) ∧
    (∀ d ∈ ((migrate_main w (initSt emptyDB)).2.1).db.team_members,
      d.id.isSome ∧ d.created_at.isSome ∧ d.updated_at.isSome) ∧
    (((migrate_main w (initSt emptyDB)).2.1).db.roadmap_tasks.map
        RoadmapTask.id ++
      ((migrate_main w (initSt emptyDB)).2.1).db.team_members.map
        TeamMember.id).Nodup := by
  obtain ⟨hst, -⟩ := main_ok_init w hf
  rw [hst]
  refine ⟨rfl, rfl, ?_, ?_, ids_nodup_init w.g hg⟩
  · intro d hd
    simp [default_tasks, default_tasks_data, List.enum, List.enumFrom] at hd
    rcases hd with rfl | rfl | rfl | rfl | rfl | rfl | rfl | rfl | rfl | rfl |
      rfl | rfl <;> simp
  · intro d hd
    simp [default_members] at hd
    rcases hd with rfl | rfl | rfl <;> simp

/-- Witness for C2 at the concrete injective oracle. -/
theorem C2_first_run_completeness_witness :
    ((migrate_main w0 (initSt emptyDB)).2.1).db.roadmap_tasks.length = 12 ∧
    ((migrate_main w0 (initSt emptyDB)).2.1).db.team_members.length = 3 ∧
    (((migrate_main w0 (initSt emptyDB)).2.1).db.roadmap_tasks.map
        RoadmapTask.id ++
      ((migrate_main w0 (initSt emptyDB)).2.1).db.team_members.map
        TeamMember.id).Nodup := by
  obtain ⟨a, b, -, -, e⟩ := C2_first_run_completeness w0 rfl gen0_inj
  exact ⟨a, b, e⟩

/-- C4: orchestrator failure propagation: if a step raises, the later
steps do not execute, the failure is logged with its message, and the
same error is re-raised; if no step raises, the three steps execute in
order roadmap, team, settings. -/
theorem C4_orchestrator_failure_propagation (w : W) (s : St) :
    (∀ e, (migrate_roadmap_tasks w s).2 = some e →
      (migrate_main w s).1 =
        [Ev.step Step.roadmap,
         Ev.logFailure ("Migration failed: " ++ e), Ev.closeConn] ∧
      (migrate_main w s).2.2 = some e) ∧
    (∀ e, (migrate_roadmap_tasks w s).2 = none →
      (migrate_team_members w (migrate_roadmap_tasks w s).1).2 = some e →
      (migrate_main w s).1 =
        [Ev.step Step.roadmap, Ev.step Step.team,
         Ev.logFailure ("Migration failed: " ++ e), Ev.closeConn] ∧
      (migrate_main w s).2.2 = some e) ∧
    (∀ e, (migrate_roadmap_tasks w s).2 = none →
      (migrate_team_members w (migrate_roadmap_tasks w s).1).2 = none →
      (check_platform_settings w
        (migrate_team_members w (migrate_roadmap_tasks w s).1).1).2.1 = some e →
      (migrate_main w s).1 =
        [Ev.step Step.roadmap, Ev.step Step.team, Ev.step Step.settings,
         Ev.logFailure ("Migration failed: " ++ e), Ev.closeConn] ∧
      (migrate_main w s).2.2 = some e) ∧
    ((migrate_roadmap_tasks w s).2 = none →
      (migrate_team_members w (migrate_roadmap_tasks w s).1).2 = none →
      (check_platform_settings w
        (migrate_team_members w (migrate_roadmap_tasks w s).1).1).2.1 = none →
      (migrate_main w s).1 =
        [Ev.step Step.roadmap, Ev.step Step.team, Ev.step Step.settings,
         Ev.closeConn] ∧
      (migrate_main w s).2.2 = none) := by
  rcases hR : migrate_roadmap_tasks w s with ⟨s1, f1⟩
  rcases hT : migrate_team_members w s1 with ⟨s2, f2⟩
  rcases hC : check_platform_settings w s2 with ⟨s3, f3, rep⟩
  refine ⟨?_, ?_, ?_, ?_⟩
  · intro e he
    simp only at he
    subst he
    constructor <;> simp [migrate_main, runSteps, hR]
  · intro e he1 he2
    simp only at he1
    subst he1
    simp only [hT] at he2
    subst he2
    constructor <;> simp [migrate_main, runSteps, hR, hT]
  · intro e he1 he2 he3
    simp only at he1
    subst he1
    simp only [hT] at he2
    subst he2
    simp only [hC] at he3
    subst he3
    constructor <;> simp [migrate_main, runSteps, hR, hT, hC]
  · intro he1 he2 he3
    simp only at he1
    subst he1
    simp only [hT] at he2
    subst he2
    simp only [hC] at he3
    subst he3
    constructor <;> simp [migrate_main, runSteps, hR, hT, hC]

/-- Witness for C4: in a world where every operation raises boom, the
run executes only the roadmap step, logs the failure and re-raises. -/
theorem C4_orchestrator_failure_propagation_witness :
    (migrate_main wBoom (initSt emptyDB)).1 =
      [Ev.step Step.roadmap,
       Ev.logFailure ("Migration failed: " ++ "boom"), Ev.closeConn] ∧
    (migrate_main wBoom (initSt emptyDB)).2.2 = some "boom" :=
  (C4_orchestrator_failure_propagation wBoom (initSt emptyDB)).1 "boom"
    (by decide)

/-- C10: the content of the seeded documents is deterministic: two
fault-free runs from the empty database agree on every field of every
inserted document except the generated id, created_at and updated_at. -/
theorem C10_deterministic_content (wa wb : W)
    (hfa : wa.faults = fun _ => none) (hfb : wb.faults = fun _ => none) :
    ((migrate_main wa (initSt emptyDB)).2.1).db.roadmap_tasks.map taskContent =
      ((migrate_main wb (initSt emptyDB)).2.1).db.roadmap_tasks.map
        taskContent ∧
    ((migrate_main wa (initSt emptyDB)).2.1).db.team_members.map memberContent =
      ((migrate_main wb (initSt emptyDB)).2.1).db.team_members.map
        memberContent := by
  obtain ⟨ha, -⟩ := main_ok_init wa hfa
  obtain ⟨hb, -⟩ := main_ok_init wb hfb
  rw [ha, hb]
  exact ⟨rfl, rfl⟩

/-- Witness for C10 at two concrete worlds with different oracles. -/
theorem C10_deterministic_content_witness :
    ((migrate_main w0 (initSt emptyDB)).2.1).db.roadmap_tasks.map taskContent =
      ((migrate_main w0b (initSt emptyDB)).2.1).db.roadmap_tasks.map
        taskContent ∧
    ((migrate_main w0 (initSt emptyDB)).2.1).db.team_members.map memberContent =
      ((migrate_main w0b (initSt emptyDB)).2.1).db.team_members.map
        memberContent :=
  C10_deterministic_content w0 w0b rfl rfl
